import Mathlib

/-!
Verification of the Monte Carlo building-purchase analysis core
(`src/Analysis.py`) against its natural-language specification.

Modelling conventions (shallow embedding):
* Python floats are modelled as rationals `ℚ` (so `1.10` is `11/10`,
  `0.06` is `6/100`); arithmetic is exact.
* A Python expression that raises (float division by zero in
  `calculate_mortgage`, `ValueError` escaping `run_simulations_with_savings_check`)
  is modelled with `Option`: `none` means the exception propagates.
* `np.random.uniform(lo, hi)` is modelled by its documented implementation
  `lo + (hi - lo) * u` with a caller-supplied unit draw `u`; a trial's nine
  draws are supplied as a `UnitDraws` record and the per-price loop receives
  one `UnitDraws` per trial.
* `npf.irr` is a numerical root finder; it is modelled as an oracle
  `List ℚ → IrrOutcome` with three outcomes mirroring the call site:
  `err` (raises `ValueError`, caught at line 109), `nonfinite` (returns a
  NaN/Inf value, filtered at line 112), `finite v` (a usable IRR).
-/

/-- `calculate_mortgage` (Analysis.py lines 10-14).  The Python body computes
`principal * (r * (1+r)^n) / ((1+r)^n - 1)` with `r = annual_interest_rate/12`,
`n = years*12`; when the denominator is zero the float division raises, which
is modelled by `none`. -/
def calculate_mortgage (principal annual_interest_rate : ℚ) (years : ℕ) : Option ℚ :=
  let monthly_interest_rate := annual_interest_rate / 12
  let num_payments := years * 12
  if (1 + monthly_interest_rate) ^ num_payments - 1 = 0 then none
  else some (principal * (monthly_interest_rate * (1 + monthly_interest_rate) ^ num_payments) /
      ((1 + monthly_interest_rate) ^ num_payments - 1))

/-- The closed-form annuity payment produced by `calculate_mortgage` when its
denominator is nonzero. -/
def mortgageFormula (principal annual_interest_rate : ℚ) (years : ℕ) : ℚ :=
  let r := annual_interest_rate / 12
  let n := years * 12
  principal * (r * (1 + r) ^ n) / ((1 + r) ^ n - 1)

/-- The fixed (non-ranged) inputs of `run_simulations_with_savings_check`. -/
structure Fixed where
  purchase_price : ℚ
  savings : ℚ
  down_payment_percentage : ℚ
  years : ℕ
  target_irr : ℚ

/-- The nine `[lo, hi]` ranges sampled per trial (Analysis.py lines 30-38). -/
structure Ranges where
  annual_base_income_range : ℚ × ℚ
  annual_base_expense_range : ℚ × ℚ
  interest_rate_range : ℚ × ℚ
  closing_cost_percentage_range : ℚ × ℚ
  additional_upfront_costs_range : ℚ × ℚ
  additional_annual_income_range : ℚ × ℚ
  additional_annual_costs_range : ℚ × ℚ
  property_growth_rate_range : ℚ × ℚ
  inflation_rate_range : ℚ × ℚ

/-- One unit draw in `[0,1]` per ranged quantity, one record per trial. -/
structure UnitDraws where
  income : ℚ
  expense : ℚ
  interest_rate : ℚ
  closing_cost_percentage : ℚ
  additional_upfront_costs : ℚ
  additional_annual_income : ℚ
  additional_annual_costs : ℚ
  property_growth_rate : ℚ
  inflation_rate : ℚ

/-- One realized trial scenario (the nine sampled values). -/
structure Scenario where
  income : ℚ
  expense : ℚ
  interest_rate : ℚ
  closing_cost_percentage : ℚ
  additional_upfront_costs : ℚ
  additional_annual_income : ℚ
  additional_annual_costs : ℚ
  property_growth_rate : ℚ
  inflation_rate : ℚ

/-- `np.random.uniform(lo, hi)` as a function of the unit draw `u`:
`lo + (hi - lo) * u` (numpy's documented implementation; no bounds check). -/
def uniform (r : ℚ × ℚ) (u : ℚ) : ℚ := r.1 + (r.2 - r.1) * u

/-- The nine independent draws of one trial (Analysis.py lines 30-38). -/
def sampleScenario (R : Ranges) (u : UnitDraws) : Scenario where
  income := uniform R.annual_base_income_range u.income
  expense := uniform R.annual_base_expense_range u.expense
  interest_rate := uniform R.interest_rate_range u.interest_rate
  closing_cost_percentage := uniform R.closing_cost_percentage_range u.closing_cost_percentage
  additional_upfront_costs := uniform R.additional_upfront_costs_range u.additional_upfront_costs
  additional_annual_income := uniform R.additional_annual_income_range u.additional_annual_income
  additional_annual_costs := uniform R.additional_annual_costs_range u.additional_annual_costs
  property_growth_rate := uniform R.property_growth_rate_range u.property_growth_rate
  inflation_rate := uniform R.inflation_rate_range u.inflation_rate

/-- The mutable state of the year loop (Analysis.py lines 63-86): the four
inflation-escalated quantities, the rollover `debt`, the growing `cash_flows`
list and the current `annual_cash_flow` variable. -/
structure YearState where
  income : ℚ
  expense : ℚ
  additional_annual_income : ℚ
  additional_annual_costs : ℚ
  debt : ℚ
  flows : List ℚ
  annual_cash_flow : ℚ

/-- One iteration of the year loop (Analysis.py lines 63-86): escalate the
four quantities by inflation, compute the net flow, apply the debt-rollover
branch (lines 74-84), and append the resulting `annual_cash_flow`. -/
def yearStep (inflation_rate annual_mortgage_payment : ℚ) (s : YearState) : YearState :=
  let income := s.income * (1 + inflation_rate)
  let expense := s.expense * (1 + inflation_rate)
  let additional_annual_income := s.additional_annual_income * (1 + inflation_rate)
  let additional_annual_costs := s.additional_annual_costs * (1 + inflation_rate)
  let flow := income + additional_annual_income - expense - annual_mortgage_payment -
      additional_annual_costs
  if flow < 0 then
    { income := income, expense := expense,
      additional_annual_income := additional_annual_income,
      additional_annual_costs := additional_annual_costs,
      debt := (s.debt + |flow|) * (11/10),
      flows := s.flows ++ [flow], annual_cash_flow := flow }
  else if flow > s.debt then
    { income := income, expense := expense,
      additional_annual_income := additional_annual_income,
      additional_annual_costs := additional_annual_costs,
      debt := 0,
      flows := s.flows ++ [flow - s.debt], annual_cash_flow := flow - s.debt }
  else
    { income := income, expense := expense,
      additional_annual_income := additional_annual_income,
      additional_annual_costs := additional_annual_costs,
      debt := s.debt - flow,
      flows := s.flows ++ [0], annual_cash_flow := 0 }

/-- `n` iterations of the year loop (`for year in range(1, years + 1)`). -/
def iterYears (inflation_rate annual_mortgage_payment : ℚ) : ℕ → YearState → YearState
  | 0, s => s
  | n + 1, s =>
      yearStep inflation_rate annual_mortgage_payment
        (iterYears inflation_rate annual_mortgage_payment n s)

/-- The loop state on entry (Analysis.py lines 51, 57-58):
`annual_cash_flow = 0`, `cash_flows = [-initial_outlay]`, `debt = 0`. -/
def initState (sc : Scenario) (initial_outlay : ℚ) : YearState where
  income := sc.income
  expense := sc.expense
  additional_annual_income := sc.additional_annual_income
  additional_annual_costs := sc.additional_annual_costs
  debt := 0
  flows := [-initial_outlay]
  annual_cash_flow := 0

/-- `cash_flows[-1] += x` (Analysis.py line 104). -/
def addLast : List ℚ → ℚ → List ℚ
  | [], _ => []
  | [a], x => [a + x]
  | a :: b :: rest, x => a :: addLast (b :: rest) x

/-- Everything one trial contributes downstream: the completed cash-flow list
(with sale proceeds folded into the last entry), the final `annual_cash_flow`,
and the ten per-trial accumulator contributions (Analysis.py lines 89-98). -/
structure TrialData where
  cash_flows : List ℚ
  annual_cash_flow : ℚ
  down_payment : ℚ
  closing_costs : ℚ
  additional_upfront_costs : ℚ
  net_upfront : ℚ
  annual_mortgage_payment : ℚ
  expense : ℚ
  additional_annual_costs : ℚ
  income : ℚ
  additional_annual_income : ℚ

/-- The post-loop part of one trial (Analysis.py lines 89-104): record the
accumulator contributions from the final loop state, compute the sale
proceeds `gross - 6% of gross`, and add them to the last cash-flow entry.
The loop state's `debt` field is not read. -/
def finishTrial (F : Fixed) (sc : Scenario)
    (down_payment closing_costs initial_outlay annual_mortgage_payment : ℚ)
    (s : YearState) : TrialData :=
  let gross_sale_price := F.purchase_price * (1 + sc.property_growth_rate) ^ F.years
  let sale_closing_costs := gross_sale_price * (6/100)
  let final_sale_price := gross_sale_price - sale_closing_costs
  { cash_flows := addLast s.flows final_sale_price
    annual_cash_flow := s.annual_cash_flow
    down_payment := down_payment
    closing_costs := closing_costs
    additional_upfront_costs := sc.additional_upfront_costs
    net_upfront := F.savings - initial_outlay
    annual_mortgage_payment := annual_mortgage_payment
    expense := s.expense
    additional_annual_costs := s.additional_annual_costs
    income := s.income
    additional_annual_income := s.additional_annual_income }

/-- One trial given the (already computed) monthly mortgage payment
(Analysis.py lines 40-104 without the `calculate_mortgage` call). -/
def runTrialWith (F : Fixed) (sc : Scenario) (monthly_mortgage : ℚ) : TrialData :=
  let down_payment := F.purchase_price * F.down_payment_percentage
  let loan_amount := F.purchase_price - down_payment
  let closing_costs := loan_amount * sc.closing_cost_percentage
  let initial_outlay := down_payment + closing_costs + sc.additional_upfront_costs
  let annual_mortgage_payment := monthly_mortgage * 12
  finishTrial F sc down_payment closing_costs initial_outlay annual_mortgage_payment
    (iterYears sc.inflation_rate annual_mortgage_payment F.years
      (initState sc initial_outlay))

/-- One trial (Analysis.py lines 40-104).  `calculate_mortgage` is called with
the default 30-year term (line 47); if it raises, the exception propagates,
modelled by `none`. -/
def runTrial (F : Fixed) (sc : Scenario) : Option TrialData :=
  let loan_amount := F.purchase_price - F.purchase_price * F.down_payment_percentage
  (calculate_mortgage loan_amount sc.interest_rate 30).map (runTrialWith F sc)

/-- Outcome of the `npf.irr` call (Analysis.py lines 107-112): it raises
`ValueError`, returns a NaN/Inf, or returns a finite value. -/
inductive IrrOutcome
  | err
  | nonfinite
  | finite (v : ℚ)

/-- The per-price accumulators (Analysis.py lines 18-26). -/
structure Accum where
  favorable_outcomes : ℕ
  irrs : List ℚ
  count_irr_above_target : ℕ
  total_down_payments : ℚ
  total_closing_costs : ℚ
  total_additional_upfront_costs : ℚ
  total_net_upfront : ℚ
  total_annual_mortgage_payments : ℚ
  total_annual_base_expenses : ℚ
  total_additional_annual_costs : ℚ
  total_annual_base_incomes : ℚ
  total_additional_annual_incomes : ℚ
  total_net_annual_profit : ℚ

/-- All accumulators zero, `irrs = []` (Analysis.py lines 18-26). -/
def Accum.start : Accum where
  favorable_outcomes := 0
  irrs := []
  count_irr_above_target := 0
  total_down_payments := 0
  total_closing_costs := 0
  total_additional_upfront_costs := 0
  total_net_upfront := 0
  total_annual_mortgage_payments := 0
  total_annual_base_expenses := 0
  total_additional_annual_costs := 0
  total_annual_base_incomes := 0
  total_additional_annual_incomes := 0
  total_net_annual_profit := 0

/-- The accumulator updates of Analysis.py lines 89-98 (executed before the
IRR call, hence before any `continue`). -/
def addSums (a : Accum) (td : TrialData) : Accum :=
  { a with
    total_down_payments := a.total_down_payments + td.down_payment
    total_closing_costs := a.total_closing_costs + td.closing_costs
    total_additional_upfront_costs :=
      a.total_additional_upfront_costs + td.additional_upfront_costs
    total_net_upfront := a.total_net_upfront + td.net_upfront
    total_annual_mortgage_payments :=
      a.total_annual_mortgage_payments + td.annual_mortgage_payment
    total_annual_base_expenses := a.total_annual_base_expenses + td.expense
    total_additional_annual_costs :=
      a.total_additional_annual_costs + td.additional_annual_costs
    total_annual_base_incomes := a.total_annual_base_incomes + td.income
    total_additional_annual_incomes :=
      a.total_additional_annual_incomes + td.additional_annual_income
    total_net_annual_profit := a.total_net_annual_profit + td.annual_cash_flow }

/-- The tail of one loop iteration (Analysis.py lines 89-118): update the
running sums, then call the IRR solver on the completed cash flows.
If it raises, `continue` skips the rest of the iteration, including the
favorability check; a NaN/Inf IRR is dropped from the IRR statistics but the
favorability check still runs; a finite IRR is recorded and compared with the
target.  Finally `favorable_outcomes` is incremented when the final
`annual_cash_flow` is nonnegative. -/
def processTrial (target_irr : ℚ) (irrOracle : List ℚ → IrrOutcome)
    (a : Accum) (td : TrialData) : Accum :=
  let a1 := addSums a td
  match irrOracle td.cash_flows with
  | .err => a1
  | .nonfinite =>
      if td.annual_cash_flow ≥ 0 then
        { a1 with favorable_outcomes := a1.favorable_outcomes + 1 }
      else a1
  | .finite v =>
      let a2 := { a1 with
        irrs := a1.irrs ++ [v]
        count_irr_above_target :=
          if v > target_irr then a1.count_irr_above_target + 1
          else a1.count_irr_above_target }
      if td.annual_cash_flow ≥ 0 then
        { a2 with favorable_outcomes := a2.favorable_outcomes + 1 }
      else a2

/-- The returned tuple of `run_simulations_with_savings_check`
(Analysis.py line 136). -/
structure SimResult where
  favorable_percentage : ℚ
  average_irr : Option ℚ
  percent_above_target_irr : ℚ
  mean_down_payment : ℚ
  mean_closing_costs : ℚ
  mean_additional_upfront_costs : ℚ
  mean_net_upfront : ℚ
  mean_annual_mortgage_payment : ℚ
  mean_annual_base_expense : ℚ
  mean_additional_annual_costs : ℚ
  mean_annual_base_income : ℚ
  mean_additional_annual_income : ℚ
  mean_net_annual_profit : ℚ

/-- The final statistics (Analysis.py lines 120-134):
`average_irr = np.mean(irrs) if irrs else None`,
`percent_above_target_irr = count / len(irrs) * 100 if irrs else 0`,
every mean divided by the total trial count. -/
def summarize (total_simulations : ℕ) (a : Accum) : SimResult where
  favorable_percentage := (a.favorable_outcomes : ℚ) / total_simulations * 100
  average_irr := if a.irrs = [] then none else some (a.irrs.sum / a.irrs.length)
  percent_above_target_irr :=
    if a.irrs = [] then 0
    else (a.count_irr_above_target : ℚ) / a.irrs.length * 100
  mean_down_payment := a.total_down_payments / total_simulations
  mean_closing_costs := a.total_closing_costs / total_simulations
  mean_additional_upfront_costs := a.total_additional_upfront_costs / total_simulations
  mean_net_upfront := a.total_net_upfront / total_simulations
  mean_annual_mortgage_payment := a.total_annual_mortgage_payments / total_simulations
  mean_annual_base_expense := a.total_annual_base_expenses / total_simulations
  mean_additional_annual_costs := a.total_additional_annual_costs / total_simulations
  mean_annual_base_income := a.total_annual_base_incomes / total_simulations
  mean_additional_annual_income := a.total_additional_annual_incomes / total_simulations
  mean_net_annual_profit := a.total_net_annual_profit / total_simulations

/-- Fold the per-trial tail over all completed trials. -/
def aggregate (target_irr : ℚ) (irrOracle : List ℚ → IrrOutcome)
    (total_simulations : ℕ) (datas : List TrialData) : SimResult :=
  summarize total_simulations (datas.foldl (processTrial target_irr irrOracle) Accum.start)

/-- Run every trial, propagating an exception (`none`) if any trial's
mortgage computation raises. -/
def mapTrials (f : Scenario → Option TrialData) : List Scenario → Option (List TrialData)
  | [] => some []
  | sc :: rest => (f sc).bind fun td => (mapTrials f rest).map fun tds => td :: tds

/-- `run_simulations_with_savings_check` (Analysis.py lines 17-136): sample one
scenario per supplied draw record, run every trial, and aggregate.  The trial
count (the Python constant `total_simulations = 1000`, which is also the
number of loop iterations) is the length of the draw list. -/
def run_simulations_with_savings_check (F : Fixed) (R : Ranges)
    (draws : List UnitDraws) (irrOracle : List ℚ → IrrOutcome) : Option SimResult :=
  (mapTrials (runTrial F) (draws.map (sampleScenario R))).map
    (aggregate F.target_irr irrOracle draws.length)

/-! ## Concrete example inputs used by witnesses and counterexamples -/

/-- A small fixed configuration: price 100, 50% down, one simulated year. -/
def exFixed : Fixed where
  purchase_price := 100
  savings := 0
  down_payment_percentage := 1/2
  years := 1
  target_irr := 0

/-- Degenerate point ranges; the interest rate -12 makes the monthly rate -1,
so the annuity formula evaluates to a mortgage payment of 0 without raising. -/
def exRanges : Ranges where
  annual_base_income_range := (10, 10)
  annual_base_expense_range := (1, 1)
  interest_rate_range := (-12, -12)
  closing_cost_percentage_range := (0, 0)
  additional_upfront_costs_range := (0, 0)
  additional_annual_income_range := (0, 0)
  additional_annual_costs_range := (0, 0)
  property_growth_rate_range := (0, 0)
  inflation_rate_range := (0, 0)

/-- All unit draws zero (each range's `lo` endpoint is sampled). -/
def exDraw : UnitDraws where
  income := 0
  expense := 0
  interest_rate := 0
  closing_cost_percentage := 0
  additional_upfront_costs := 0
  additional_annual_income := 0
  additional_annual_costs := 0
  property_growth_rate := 0
  inflation_rate := 0

/-- A concrete loop state used in witnesses: one unit of rollover debt, a
year about to come up short by 2. -/
def exState : YearState where
  income := 0
  expense := 2
  additional_annual_income := 0
  additional_annual_costs := 0
  debt := 1
  flows := []
  annual_cash_flow := 0

/-- `down_payment + closing_costs + additional_upfront_costs`
(Analysis.py line 44). -/
def initial_outlay (F : Fixed) (sc : Scenario) : ℚ :=
  F.purchase_price * F.down_payment_percentage +
    (F.purchase_price - F.purchase_price * F.down_payment_percentage) *
      sc.closing_cost_percentage +
    sc.additional_upfront_costs

/-- Net sale proceeds `gross - 6% of gross` with
`gross = price * (1 + growth)^years` (Analysis.py lines 101-103). -/
def final_sale_price (F : Fixed) (sc : Scenario) : ℚ :=
  let gross_sale_price := F.purchase_price * (1 + sc.property_growth_rate) ^ F.years
  let sale_closing_costs := gross_sale_price * (6/100)
  gross_sale_price - sale_closing_costs

/-- The loop state after `n` of the trial's simulated years. -/
def loopState (F : Fixed) (sc : Scenario) (m : ℚ) (n : ℕ) : YearState :=
  iterYears sc.inflation_rate (m * 12) n (initState sc (initial_outlay F sc))

/-- The valid (finite, non-NaN) IRR a single trial contributes, if any. -/
def validIrr (irrOracle : List ℚ → IrrOutcome) (td : TrialData) : Option ℚ :=
  match irrOracle td.cash_flows with
  | .finite v => some v
  | _ => none

/-- The `irrs` list built by the loop: one entry per trial whose solver call
returned a finite value. -/
def validIrrs (irrOracle : List ℚ → IrrOutcome) (datas : List TrialData) : List ℚ :=
  datas.filterMap (validIrr irrOracle)

/-- A concrete completed trial, as produced by the example configuration. -/
def exTrial : TrialData where
  cash_flows := [-50, 103]
  annual_cash_flow := 9
  down_payment := 50
  closing_costs := 0
  additional_upfront_costs := 0
  net_upfront := -50
  annual_mortgage_payment := 0
  expense := 1
  additional_annual_costs := 0
  income := 10
  additional_annual_income := 0

/-- The scenario realized from `exRanges` with all-zero draws. -/
def exScenario : Scenario where
  income := 10
  expense := 1
  interest_rate := -12
  closing_cost_percentage := 0
  additional_upfront_costs := 0
  additional_annual_income := 0
  additional_annual_costs := 0
  property_growth_rate := 0
  inflation_rate := 0

/-- A configuration whose income range has `lo = 1 > hi = 0`. -/
def exRangesBad : Ranges := { exRanges with annual_base_income_range := (1, 0) }

/-- The scenario realized from `exRangesBad` with all-zero draws: the income
is sampled (value `lo = 1`) despite the inverted bounds. -/
def exScenarioBad : Scenario := { exScenario with income := 1 }

/-- The trial completed from `exScenarioBad`: net flow 0 in year 1. -/
def exTrialBad : TrialData where
  cash_flows := [-50, 94]
  annual_cash_flow := 0
  down_payment := 50
  closing_costs := 0
  additional_upfront_costs := 0
  net_upfront := -50
  annual_mortgage_payment := 0
  expense := 1
  additional_annual_costs := 0
  income := 1
  additional_annual_income := 0

/-- The nine ranged components of the configuration (one per
`np.random.uniform` call, Analysis.py lines 30-38). -/
inductive RangeField
  | income
  | expense
  | interest_rate
  | closing_cost_percentage
  | additional_upfront_costs
  | additional_annual_income
  | additional_annual_costs
  | property_growth_rate
  | inflation_rate

/-- The `(lo, hi)` pair a component reads from the configuration. -/
def rangeOf (c : RangeField) (R : Ranges) : ℚ × ℚ :=
  match c with
  | .income => R.annual_base_income_range
  | .expense => R.annual_base_expense_range
  | .interest_rate => R.interest_rate_range
  | .closing_cost_percentage => R.closing_cost_percentage_range
  | .additional_upfront_costs => R.additional_upfront_costs_range
  | .additional_annual_income => R.additional_annual_income_range
  | .additional_annual_costs => R.additional_annual_costs_range
  | .property_growth_rate => R.property_growth_rate_range
  | .inflation_rate => R.inflation_rate_range

/-- Swap the two endpoints of one component's range. -/
def swapRange (c : RangeField) (R : Ranges) : Ranges :=
  match c with
  | .income => { R with annual_base_income_range :=
      (R.annual_base_income_range.2, R.annual_base_income_range.1) }
  | .expense => { R with annual_base_expense_range :=
      (R.annual_base_expense_range.2, R.annual_base_expense_range.1) }
  | .interest_rate => { R with interest_rate_range :=
      (R.interest_rate_range.2, R.interest_rate_range.1) }
  | .closing_cost_percentage => { R with closing_cost_percentage_range :=
      (R.closing_cost_percentage_range.2, R.closing_cost_percentage_range.1) }
  | .additional_upfront_costs => { R with additional_upfront_costs_range :=
      (R.additional_upfront_costs_range.2, R.additional_upfront_costs_range.1) }
  | .additional_annual_income => { R with additional_annual_income_range :=
      (R.additional_annual_income_range.2, R.additional_annual_income_range.1) }
  | .additional_annual_costs => { R with additional_annual_costs_range :=
      (R.additional_annual_costs_range.2, R.additional_annual_costs_range.1) }
  | .property_growth_rate => { R with property_growth_rate_range :=
      (R.property_growth_rate_range.2, R.property_growth_rate_range.1) }
  | .inflation_rate => { R with inflation_rate_range :=
      (R.inflation_rate_range.2, R.inflation_rate_range.1) }

/-- Reflect one component's unit draw (`u` to `1 - u`). -/
def reflectDraw (c : RangeField) (u : UnitDraws) : UnitDraws :=
  match c with
  | .income => { u with income := 1 - u.income }
  | .expense => { u with expense := 1 - u.expense }
  | .interest_rate => { u with interest_rate := 1 - u.interest_rate }
  | .closing_cost_percentage =>
      { u with closing_cost_percentage := 1 - u.closing_cost_percentage }
  | .additional_upfront_costs =>
      { u with additional_upfront_costs := 1 - u.additional_upfront_costs }
  | .additional_annual_income =>
      { u with additional_annual_income := 1 - u.additional_annual_income }
  | .additional_annual_costs =>
      { u with additional_annual_costs := 1 - u.additional_annual_costs }
  | .property_growth_rate =>
      { u with property_growth_rate := 1 - u.property_growth_rate }
  | .inflation_rate => { u with inflation_rate := 1 - u.inflation_rate }

/-- Shift the net-upfront field of one trial's data by a constant. -/
def shiftNU (td : TrialData) (d : ℚ) : TrialData :=
  { td with net_upfront := td.net_upfront + d }

/-- Equality of accumulators in every field except `total_net_upfront`. -/
def Accum.eqExceptNU (a b : Accum) : Prop :=
  a.favorable_outcomes = b.favorable_outcomes ∧
  a.irrs = b.irrs ∧
  a.count_irr_above_target = b.count_irr_above_target ∧
  a.total_down_payments = b.total_down_payments ∧
  a.total_closing_costs = b.total_closing_costs ∧
  a.total_additional_upfront_costs = b.total_additional_upfront_costs ∧
  a.total_annual_mortgage_payments = b.total_annual_mortgage_payments ∧
  a.total_annual_base_expenses = b.total_annual_base_expenses ∧
  a.total_additional_annual_costs = b.total_additional_annual_costs ∧
  a.total_annual_base_incomes = b.total_annual_base_incomes ∧
  a.total_additional_annual_incomes = b.total_additional_annual_incomes ∧
  a.total_net_annual_profit = b.total_net_annual_profit

/-- A `SimResult` with the mean net-upfront forgotten. -/
def eraseNetUpfront (r : SimResult) : SimResult := { r with mean_net_upfront := 0 }

/-! ## C2: zero interest rate -/

/-- Claim C2 counterexample: at annual rate 0 the denominator
`(1 + 0/12)^360 - 1` is zero, so `calculate_mortgage` raises (modelled `none`)
instead of returning `principal / (years*12)`. -/
theorem C2_counterexample :
    calculate_mortgage 100 0 30 = none ∧
    calculate_mortgage 100 0 30 ≠ some (100 / (30 * 12)) := by
  constructor
  · simp [calculate_mortgage]
  · simp [calculate_mortgage]

/-- Claim C2 (amended): for every principal and term, an annual interest rate
of exactly 0 makes the annuity formula's denominator zero, so
`calculate_mortgage` performs a division by zero (raises; modelled `none`)
rather than returning `principal / (years*12)`; the zero-rate special case is
absent from the code. -/
theorem C2_zero_rate_raises (principal : ℚ) (t : ℕ) :
    calculate_mortgage principal 0 t = none := by
  simp [calculate_mortgage]

/-! ## C5: positive-rate annuity identity -/

/-- Claim C5: for positive principal, positive rate and term at least one
year, `calculate_mortgage` succeeds with the closed-form annuity payment, and
that payment times the annuity factor `((1+r)^n - 1)/(r(1+r)^n)` recovers the
principal exactly. -/
theorem C5_annuity_identity (principal rate : ℚ) (t : ℕ)
    (hp : 0 < principal) (hr : 0 < rate) (ht : 1 ≤ t) :
    calculate_mortgage principal rate t = some (mortgageFormula principal rate t) ∧
    mortgageFormula principal rate t *
      (((1 + rate / 12) ^ (t * 12) - 1) / ((rate / 12) * (1 + rate / 12) ^ (t * 12))) =
      principal := by
  have hr12 : 0 < rate / 12 := by positivity
  have hq1 : 1 < (1 + rate / 12) ^ (t * 12) :=
    one_lt_pow₀ (by linarith) (by omega)
  have hden : (1 + rate / 12) ^ (t * 12) - 1 ≠ 0 := by
    intro h0
    have h1 : (1 + rate / 12) ^ (t * 12) = 1 := by linarith
    rw [h1] at hq1
    exact lt_irrefl 1 hq1
  have hq0 : (1 + rate / 12) ^ (t * 12) ≠ 0 := by positivity
  constructor
  · simp [calculate_mortgage, mortgageFormula, hden]
  · unfold mortgageFormula
    set r : ℚ := rate / 12 with hr_def
    set q : ℚ := (1 + r) ^ (t * 12) with hq_def
    have hrne : r ≠ 0 := ne_of_gt hr12
    field_simp

/-- Claim C5 witness: at principal 100, rate 12 (monthly rate 1), one-year
term, the hypotheses hold and the identity is realized. -/
theorem C5_witness :
    calculate_mortgage 100 12 1 = some (mortgageFormula 100 12 1) ∧
    mortgageFormula 100 12 1 *
      (((1 + (12:ℚ) / 12) ^ (1 * 12) - 1) /
        (((12:ℚ) / 12) * (1 + (12:ℚ) / 12) ^ (1 * 12))) = 100 :=
  C5_annuity_identity 100 12 1 (by norm_num) (by norm_num) (by norm_num)

/-! ## Year-loop structure lemmas -/

theorem iterYears_succ (inflation_rate m : ℚ) (n : ℕ) (s : YearState) :
    iterYears inflation_rate m (n + 1) s =
      yearStep inflation_rate m (iterYears inflation_rate m n s) := rfl

theorem iterYears_one (inflation_rate m : ℚ) (s : YearState) :
    iterYears inflation_rate m 1 s = yearStep inflation_rate m s := rfl

/-- Each loop iteration appends exactly the new `annual_cash_flow` value. -/
theorem yearStep_flows (inflation_rate m : ℚ) (s : YearState) :
    (yearStep inflation_rate m s).flows =
      s.flows ++ [(yearStep inflation_rate m s).annual_cash_flow] := by
  simp only [yearStep]
  split
  · rfl
  · split
    · rfl
    · rfl

/-- One loop iteration keeps the rollover debt nonnegative. -/
theorem yearStep_debt_nonneg (inflation_rate m : ℚ) (s : YearState) (h : 0 ≤ s.debt) :
    0 ≤ (yearStep inflation_rate m s).debt := by
  simp only [yearStep]
  split
  · exact mul_nonneg (add_nonneg h (abs_nonneg _)) (by norm_num)
  · split
    · exact le_refl 0
    · next hpos hle =>
        have hle2 := not_lt.mp hle
        dsimp only
        linarith

/-! ## C3: the per-year debt/cash-flow update rule -/

/-- Claim C3: within each simulated year, with `flow` the inflation-escalated
net flow of the year, the update satisfies: if `flow < 0` the debt becomes
`(debt + |flow|) * 1.10` and the original negative `flow` is appended;
if `flow ≥ 0` and `flow > debt` the appended flow is `flow - debt` and the
debt becomes 0; otherwise the debt becomes `debt - flow` and 0 is appended.
The final conjunct ties the rule to the year loop: iteration `n+1` applies
exactly this step to the state after `n` iterations. -/
theorem C3_debt_update_rule (inflation_rate m : ℚ) (s : YearState) (n : ℕ) :
    let flow := s.income * (1 + inflation_rate) + s.additional_annual_income * (1 + inflation_rate)
      - s.expense * (1 + inflation_rate) - m - s.additional_annual_costs * (1 + inflation_rate)
    (flow < 0 →
      (yearStep inflation_rate m s).debt = (s.debt + |flow|) * (11/10) ∧
      (yearStep inflation_rate m s).flows = s.flows ++ [flow]) ∧
    (0 ≤ flow → flow > s.debt →
      (yearStep inflation_rate m s).flows = s.flows ++ [flow - s.debt] ∧
      (yearStep inflation_rate m s).debt = 0) ∧
    (0 ≤ flow → flow ≤ s.debt →
      (yearStep inflation_rate m s).debt = s.debt - flow ∧
      (yearStep inflation_rate m s).flows = s.flows ++ [0]) ∧
    iterYears inflation_rate m (n + 1) s =
      yearStep inflation_rate m (iterYears inflation_rate m n s) := by
  intro flow
  refine ⟨?_, ?_, ?_, rfl⟩
  · intro hneg
    constructor
    · simp only [yearStep]
      rw [if_pos hneg]
    · simp only [yearStep]
      rw [if_pos hneg]
  · intro hnn hgt
    constructor
    · simp only [yearStep]
      rw [if_neg (not_lt.mpr hnn), if_pos hgt]
    · simp only [yearStep]
      rw [if_neg (not_lt.mpr hnn), if_pos hgt]
  · intro hnn hle
    constructor
    · simp only [yearStep]
      rw [if_neg (not_lt.mpr hnn), if_neg (not_lt.mpr hle)]
    · simp only [yearStep]
      rw [if_neg (not_lt.mpr hnn), if_neg (not_lt.mpr hle)]


/-- Claim C3 witness: at `exState` with zero inflation and zero mortgage the
net flow is -2, so the debt becomes `(1 + 2) * 1.10 = 33/10` and the original
-2 is appended. -/
theorem C3_witness :
    (yearStep 0 0 exState).debt = 33/10 ∧ (yearStep 0 0 exState).flows = [-2] := by
  obtain ⟨h1, h2⟩ := (C3_debt_update_rule 0 0 exState 0).1 (by norm_num [exState])
  refine ⟨?_, ?_⟩
  · rw [h1]
    norm_num [exState]
  · rw [h2]
    norm_num [exState]

/-! ## C4: the rollover debt is never negative -/

/-- Claim C4: the loop starts with debt 0 (`initState`), and from any state
with nonnegative debt, any number of loop iterations keeps the debt
nonnegative. -/
theorem C4_debt_nonneg (inflation_rate m : ℚ) (sc : Scenario) (io : ℚ)
    (s : YearState) (h : 0 ≤ s.debt) (n : ℕ) :
    (initState sc io).debt = 0 ∧ 0 ≤ (iterYears inflation_rate m n s).debt := by
  refine ⟨rfl, ?_⟩
  induction n with
  | zero => exact h
  | succ k ih => exact yearStep_debt_nonneg inflation_rate m _ ih

/-- Claim C4 witness: three iterations from `exState` (debt 1 ≥ 0). -/
theorem C4_witness :
    (initState (sampleScenario exRanges exDraw) 50).debt = 0 ∧
    0 ≤ (iterYears 0 0 3 exState).debt :=
  C4_debt_nonneg 0 0 (sampleScenario exRanges exDraw) 50 exState (by norm_num [exState]) 3

/-! ## Named per-trial quantities (as computed in Analysis.py lines 41-44,
60-61, 101-103) -/




theorem runTrialWith_eq (F : Fixed) (sc : Scenario) (m : ℚ) :
    runTrialWith F sc m =
      finishTrial F sc (F.purchase_price * F.down_payment_percentage)
        ((F.purchase_price - F.purchase_price * F.down_payment_percentage) *
          sc.closing_cost_percentage)
        (initial_outlay F sc) (m * 12) (loopState F sc m F.years) := rfl

/-! ## More year-loop lemmas -/

theorem iterYears_flows_length (inflation_rate m : ℚ) (s : YearState) (n : ℕ) :
    (iterYears inflation_rate m n s).flows.length = s.flows.length + n := by
  induction n with
  | zero => rfl
  | succ k ih =>
      rw [iterYears_succ, yearStep_flows, List.length_append, ih]
      simp [Nat.add_assoc]

theorem iterYears_flows_ne_nil (inflation_rate m : ℚ) (s : YearState) (n : ℕ)
    (h : s.flows ≠ []) : (iterYears inflation_rate m n s).flows ≠ [] := by
  intro hnil
  have hlen := iterYears_flows_length inflation_rate m s n
  rw [hnil] at hlen
  simp only [List.length_nil] at hlen
  have hne : s.flows.length ≠ 0 := fun h0 => h (List.length_eq_zero.mp h0)
  omega

theorem iterYears_flows_head (inflation_rate m : ℚ) (s : YearState) (n : ℕ)
    (h : s.flows ≠ []) :
    (iterYears inflation_rate m n s).flows.head? = s.flows.head? := by
  induction n with
  | zero => rfl
  | succ k ih =>
      rw [iterYears_succ, yearStep_flows, List.head?_append, ih]
      cases hl : s.flows with
      | nil => exact absurd hl h
      | cons a t => simp

theorem iterYears_flows_get (inflation_rate m : ℚ) (s : YearState)
    (hs : s.flows.length = 1) (n : ℕ) :
    ∀ i, 1 ≤ i → i ≤ n → (iterYears inflation_rate m n s).flows[i]? =
      some ((iterYears inflation_rate m i s).annual_cash_flow) := by
  induction n with
  | zero =>
      intro i h1 h2
      omega
  | succ k ih =>
      intro i h1 h2
      rw [iterYears_succ, yearStep_flows]
      rcases Nat.lt_or_ge i (k + 1) with hlt | hge
      · rw [List.getElem?_append_left (by rw [iterYears_flows_length, hs]; omega)]
        exact ih i h1 (by omega)
      · have hik : i = k + 1 := by omega
        subst hik
        have hlen : (iterYears inflation_rate m k s).flows.length = k + 1 := by
          rw [iterYears_flows_length, hs]
          omega
        have h3 := List.getElem?_concat_length (iterYears inflation_rate m k s).flows
          ((yearStep inflation_rate m (iterYears inflation_rate m k s)).annual_cash_flow)
        rw [hlen] at h3
        rw [h3, iterYears_succ]

theorem addLast_concat (l : List ℚ) (a x : ℚ) : addLast (l ++ [a]) x = l ++ [a + x] := by
  induction l with
  | nil => rfl
  | cons b t ih =>
      cases t with
      | nil => rfl
      | cons c t2 =>
          have h1 : addLast ((b :: c :: t2) ++ [a]) x =
              b :: addLast ((c :: t2) ++ [a]) x := rfl
          rw [h1, ih]
          rfl

/-- The completed cash-flow list of one trial, in concatenation form. -/
theorem runTrialWith_cash_flows (F : Fixed) (sc : Scenario) (m : ℚ) (k : ℕ)
    (hy : F.years = k + 1) :
    (runTrialWith F sc m).cash_flows =
      (loopState F sc m k).flows ++
        [(loopState F sc m (k + 1)).annual_cash_flow + final_sale_price F sc] := by
  have h1 : (runTrialWith F sc m).cash_flows =
      addLast (loopState F sc m F.years).flows (final_sale_price F sc) := rfl
  rw [h1, hy]
  have h2 : loopState F sc m (k + 1) =
      yearStep sc.inflation_rate (m * 12) (loopState F sc m k) := rfl
  rw [h2, yearStep_flows, addLast_concat]

theorem initState_flows_length (sc : Scenario) (io : ℚ) :
    (initState sc io).flows.length = 1 := rfl

theorem runTrialWith_getLast (F : Fixed) (sc : Scenario) (m : ℚ) (k : ℕ)
    (hy : F.years = k + 1) :
    (runTrialWith F sc m).cash_flows.getLast? =
      some ((loopState F sc m F.years).annual_cash_flow + final_sale_price F sc) := by
  rw [runTrialWith_cash_flows F sc m k hy, List.getLast?_concat, hy]

/-! ## C6: shape of the cash-flow series -/

/-- Claim C6: for a horizon of at least one year, the trial's cash-flow
sequence has `years + 1` entries; entry 0 is the negated initial outlay;
entry `i` (for `1 ≤ i < years`) is year `i`'s debt-adjusted net flow; and the
last entry is year `years`'s debt-adjusted net flow plus the net sale
proceeds `gross - 6% of gross` with `gross = price * (1 + growth)^years`. -/
theorem C6_cash_flow_series (F : Fixed) (sc : Scenario) (m : ℚ) (h : 1 ≤ F.years) :
    (runTrialWith F sc m).cash_flows.length = F.years + 1 ∧
    (runTrialWith F sc m).cash_flows.head? = some (-(initial_outlay F sc)) ∧
    (∀ i, 1 ≤ i → i < F.years →
      (runTrialWith F sc m).cash_flows[i]? =
        some ((loopState F sc m i).annual_cash_flow)) ∧
    (runTrialWith F sc m).cash_flows.getLast? =
      some ((loopState F sc m F.years).annual_cash_flow + final_sale_price F sc) := by
  obtain ⟨k, hy⟩ : ∃ k, F.years = k + 1 := ⟨F.years - 1, by omega⟩
  have hcf := runTrialWith_cash_flows F sc m k hy
  refine ⟨?_, ?_, ?_, ?_⟩
  · rw [hcf, List.length_append, hy]
    simp only [loopState, iterYears_flows_length, initState_flows_length,
      List.length_singleton]
    omega
  · rw [hcf, List.head?_append]
    simp only [loopState]
    rw [iterYears_flows_head _ _ _ _ (by simp [initState])]
    rfl
  · intro i h1 h2
    rw [hcf]
    rw [List.getElem?_append_left (show i < (loopState F sc m k).flows.length by
      simp only [loopState, iterYears_flows_length, initState_flows_length]
      omega)]
    simp only [loopState]
    exact iterYears_flows_get sc.inflation_rate (m * 12) _
      (initState_flows_length sc _) k i h1 (by omega)
  · exact runTrialWith_getLast F sc m k hy

/-- Claim C6 witness: the one-year example configuration. -/
theorem C6_witness :
    1 ≤ exFixed.years ∧
    ((runTrialWith exFixed (sampleScenario exRanges exDraw) 0).cash_flows.length =
        exFixed.years + 1 ∧
      (runTrialWith exFixed (sampleScenario exRanges exDraw) 0).cash_flows.head? =
        some (-(initial_outlay exFixed (sampleScenario exRanges exDraw))) ∧
      (∀ i, 1 ≤ i → i < exFixed.years →
        (runTrialWith exFixed (sampleScenario exRanges exDraw) 0).cash_flows[i]? =
          some ((loopState exFixed (sampleScenario exRanges exDraw) 0 i).annual_cash_flow)) ∧
      (runTrialWith exFixed (sampleScenario exRanges exDraw) 0).cash_flows.getLast? =
        some ((loopState exFixed (sampleScenario exRanges exDraw) 0
            exFixed.years).annual_cash_flow +
          final_sale_price exFixed (sampleScenario exRanges exDraw))) :=
  ⟨by norm_num [exFixed],
    C6_cash_flow_series exFixed (sampleScenario exRanges exDraw) 0 (by norm_num [exFixed])⟩

/-! ## C10: leftover rollover debt is silently discarded -/

/-- Claim C10: the post-loop stage reads nothing from the final debt balance
(changing it changes no output of the trial), and the last cash-flow entry is
the final year's debt-adjusted net flow plus the net sale proceeds, with no
deduction of remaining debt.  Since `TrialData` carries everything a trial
contributes to the favorability tally and the running sums, the first
conjunct also shows the remaining debt affects neither. -/
theorem C10_leftover_debt_discarded (F : Fixed) (sc : Scenario)
    (dp cc io amp m d : ℚ) (s : YearState) (h : 1 ≤ F.years) :
    finishTrial F sc dp cc io amp { s with debt := d } =
      finishTrial F sc dp cc io amp s ∧
    (runTrialWith F sc m).cash_flows.getLast? =
      some ((loopState F sc m F.years).annual_cash_flow + final_sale_price F sc) := by
  obtain ⟨k, hy⟩ : ∃ k, F.years = k + 1 := ⟨F.years - 1, by omega⟩
  exact ⟨rfl, runTrialWith_getLast F sc m k hy⟩

/-- Claim C10 witness: the example trial, with the final debt overwritten
to 7. -/
theorem C10_witness :
    1 ≤ exFixed.years ∧
    (finishTrial exFixed (sampleScenario exRanges exDraw) 50 0 50 0
        { exState with debt := 7 } =
      finishTrial exFixed (sampleScenario exRanges exDraw) 50 0 50 0 exState ∧
    (runTrialWith exFixed (sampleScenario exRanges exDraw) 0).cash_flows.getLast? =
      some ((loopState exFixed (sampleScenario exRanges exDraw) 0
          exFixed.years).annual_cash_flow +
        final_sale_price exFixed (sampleScenario exRanges exDraw))) :=
  ⟨by norm_num [exFixed],
    C10_leftover_debt_discarded exFixed (sampleScenario exRanges exDraw) 50 0 50 0 0 7
      exState (by norm_num [exFixed])⟩

/-! ## C7: aggregation over valid IRRs -/



theorem processTrial_irrs (t : ℚ) (o : List ℚ → IrrOutcome) (a : Accum) (td : TrialData) :
    (processTrial t o a td).irrs = a.irrs ++ (validIrr o td).toList := by
  cases h : o td.cash_flows with
  | err => simp [processTrial, validIrr, addSums, h]
  | nonfinite =>
      simp only [processTrial, validIrr, h, addSums]
      split <;> simp
  | finite v =>
      simp only [processTrial, validIrr, h, addSums]
      split <;> simp

theorem processTrial_count (t : ℚ) (o : List ℚ → IrrOutcome) (a : Accum) (td : TrialData) :
    (processTrial t o a td).count_irr_above_target =
      a.count_irr_above_target +
        ((validIrr o td).toList.filter (fun v => t < v)).length := by
  cases h : o td.cash_flows with
  | err => simp [processTrial, validIrr, addSums, h]
  | nonfinite =>
      simp only [processTrial, validIrr, h, addSums]
      split <;> simp
  | finite v =>
      simp only [processTrial, validIrr, h, addSums]
      by_cases hv : v > t
      · split <;> simp [List.filter_cons, hv]
      · split <;> simp [List.filter_cons, hv]

theorem foldl_processTrial_irrs (t : ℚ) (o : List ℚ → IrrOutcome)
    (datas : List TrialData) :
    ∀ a : Accum, (datas.foldl (processTrial t o) a).irrs = a.irrs ++ validIrrs o datas := by
  induction datas with
  | nil =>
      intro a
      simp [validIrrs]
  | cons td rest ih =>
      intro a
      rw [List.foldl_cons, ih, processTrial_irrs]
      cases h : validIrr o td <;>
        simp [validIrrs, List.filterMap_cons, h]

theorem foldl_processTrial_count (t : ℚ) (o : List ℚ → IrrOutcome)
    (datas : List TrialData) :
    ∀ a : Accum, (datas.foldl (processTrial t o) a).count_irr_above_target =
      a.count_irr_above_target + ((validIrrs o datas).filter (fun v => t < v)).length := by
  induction datas with
  | nil =>
      intro a
      simp [validIrrs]
  | cons td rest ih =>
      intro a
      rw [List.foldl_cons, ih, processTrial_count]
      cases h : validIrr o td <;>
        simp [validIrrs, List.filterMap_cons, h, List.filter_cons] <;>
        split <;> simp <;> omega

/-- Claim C7: for any trial set, the aggregator is total; when no trial
yielded a valid IRR the mean IRR is `none` and the percent-above-target is 0;
otherwise the mean is over valid IRRs only and the percentage is the
above-target count divided by the number of valid IRRs times 100. -/
theorem C7_aggregate_degrades (t : ℚ) (o : List ℚ → IrrOutcome) (total : ℕ)
    (datas : List TrialData) :
    (validIrrs o datas = [] →
      (aggregate t o total datas).average_irr = none ∧
      (aggregate t o total datas).percent_above_target_irr = 0) ∧
    (validIrrs o datas ≠ [] →
      (aggregate t o total datas).average_irr =
        some ((validIrrs o datas).sum / (validIrrs o datas).length) ∧
      (aggregate t o total datas).percent_above_target_irr =
        (((validIrrs o datas).filter (fun v => t < v)).length : ℚ) /
          (validIrrs o datas).length * 100) := by
  have hirr : (datas.foldl (processTrial t o) Accum.start).irrs = validIrrs o datas := by
    rw [foldl_processTrial_irrs]
    simp [Accum.start]
  have hcnt : (datas.foldl (processTrial t o) Accum.start).count_irr_above_target =
      ((validIrrs o datas).filter (fun v => t < v)).length := by
    rw [foldl_processTrial_count]
    simp [Accum.start]
  constructor
  · intro hempty
    simp only [aggregate, summarize, hirr, hcnt, hempty]
    exact ⟨rfl, rfl⟩
  · intro hne
    simp only [aggregate, summarize, hirr, hcnt]
    rw [if_neg hne, if_neg hne]
    exact ⟨rfl, rfl⟩


/-- Claim C7 witness: with an always-raising solver the statistics degrade to
`none` and 0; with a solver returning the finite IRR 2 they are the mean 2
and 100%. -/
theorem C7_witness :
    ((aggregate 0 (fun _ => IrrOutcome.err) 1 [exTrial]).average_irr = none ∧
      (aggregate 0 (fun _ => IrrOutcome.err) 1 [exTrial]).percent_above_target_irr = 0) ∧
    ((aggregate 0 (fun _ => IrrOutcome.finite 2) 1 [exTrial]).average_irr = some 2 ∧
      (aggregate 0 (fun _ => IrrOutcome.finite 2) 1 [exTrial]).percent_above_target_irr =
        100) := by
  constructor
  · exact (C7_aggregate_degrades 0 (fun _ => IrrOutcome.err) 1 [exTrial]).1 rfl
  · have hv : validIrrs (fun _ => IrrOutcome.finite 2) [exTrial] = [2] := rfl
    obtain ⟨h1, h2⟩ := (C7_aggregate_degrades 0 (fun _ => IrrOutcome.finite 2) 1
      [exTrial]).2 (by rw [hv]; simp)
    constructor
    · rw [h1, hv]
      norm_num
    · rw [h2, hv]
      norm_num [List.filter_cons]

/-! ## C1: a raising IRR call skips the favorability tally too -/


theorem sample_ex : sampleScenario exRanges exDraw = exScenario := by
  norm_num [sampleScenario, exRanges, exDraw, exScenario, uniform, Scenario.mk.injEq]

theorem runTrialWith_ex : runTrialWith exFixed exScenario 0 = exTrial := by
  norm_num [runTrialWith, finishTrial, iterYears_one, yearStep, initState, addLast,
    exFixed, exScenario, exTrial, TrialData.mk.injEq]

theorem runTrial_ex : runTrial exFixed exScenario = some exTrial := by
  have hm : calculate_mortgage
      (exFixed.purchase_price - exFixed.purchase_price * exFixed.down_payment_percentage)
      exScenario.interest_rate 30 = some 0 := by
    norm_num [exFixed, exScenario, calculate_mortgage]
  simp [runTrial, hm, runTrialWith_ex]

theorem run_ex (oracle : List ℚ → IrrOutcome) :
    run_simulations_with_savings_check exFixed exRanges [exDraw] oracle =
      some (aggregate 0 oracle 1 [exTrial]) := by
  have ht : exFixed.target_irr = 0 := rfl
  simp [run_simulations_with_savings_check, sample_ex, mapTrials, runTrial_ex, ht]

/-- Claim C1 counterexample: the example trial ends its final year with net
flow 9 ≥ 0; when the IRR solver raises, the favorable percentage is 0 (the
`continue` skipped the favorability check), while the identical trial with a
succeeding solver gives 100. -/
theorem C1_counterexample :
    (runTrial exFixed (sampleScenario exRanges exDraw)).map TrialData.annual_cash_flow =
      some 9 ∧
    (run_simulations_with_savings_check exFixed exRanges [exDraw]
        (fun _ => IrrOutcome.err)).map SimResult.favorable_percentage = some 0 ∧
    (run_simulations_with_savings_check exFixed exRanges [exDraw]
        (fun _ => IrrOutcome.finite 1)).map SimResult.favorable_percentage = some 100 := by
  refine ⟨?_, ?_, ?_⟩
  · rw [sample_ex, runTrial_ex]
    rfl
  · rw [run_ex]
    norm_num [aggregate, summarize, processTrial, addSums, Accum.start, exTrial]
  · rw [run_ex]
    norm_num [aggregate, summarize, processTrial, addSums, Accum.start, exTrial]

/-- Claim C1 (amended): a trial whose IRR call raises is excluded from the
IRR statistics and also from the favorability tally (the `continue` skips the
final-year check), while its contributions to the running sums (made before
the IRR call) are kept. -/
theorem C1_irr_error_skips_favorability (t : ℚ) (o : List ℚ → IrrOutcome) (a : Accum)
    (td : TrialData) (h : o td.cash_flows = IrrOutcome.err) :
    processTrial t o a td = addSums a td ∧
    (processTrial t o a td).favorable_outcomes = a.favorable_outcomes ∧
    (processTrial t o a td).irrs = a.irrs ∧
    (processTrial t o a td).count_irr_above_target = a.count_irr_above_target ∧
    (processTrial t o a td).total_net_annual_profit =
      a.total_net_annual_profit + td.annual_cash_flow := by
  have h1 : processTrial t o a td = addSums a td := by
    simp [processTrial, h]
  rw [h1]
  refine ⟨rfl, ?_, ?_, ?_, ?_⟩ <;> simp [addSums]

/-- Claim C1 witness: the always-raising oracle on the example trial. -/
theorem C1_witness :
    processTrial 0 (fun _ => IrrOutcome.err) Accum.start exTrial =
      addSums Accum.start exTrial ∧
    (processTrial 0 (fun _ => IrrOutcome.err) Accum.start exTrial).favorable_outcomes =
      Accum.start.favorable_outcomes ∧
    (processTrial 0 (fun _ => IrrOutcome.err) Accum.start exTrial).irrs =
      Accum.start.irrs ∧
    (processTrial 0 (fun _ => IrrOutcome.err) Accum.start
        exTrial).count_irr_above_target = Accum.start.count_irr_above_target ∧
    (processTrial 0 (fun _ => IrrOutcome.err) Accum.start
        exTrial).total_net_annual_profit =
      Accum.start.total_net_annual_profit + exTrial.annual_cash_flow :=
  C1_irr_error_skips_favorability 0 (fun _ => IrrOutcome.err) Accum.start exTrial rfl

/-! ## C8: no bounds validation, no fail-fast -/




theorem sample_exBad : sampleScenario exRangesBad exDraw = exScenarioBad := by
  norm_num [sampleScenario, exRangesBad, exRanges, exDraw, exScenarioBad, exScenario,
    uniform, Scenario.mk.injEq]

theorem runTrialWith_exBad : runTrialWith exFixed exScenarioBad 0 = exTrialBad := by
  norm_num [runTrialWith, finishTrial, iterYears_one, yearStep, initState, addLast,
    exFixed, exScenarioBad, exScenario, exTrialBad, TrialData.mk.injEq]

theorem runTrial_exBad : runTrial exFixed exScenarioBad = some exTrialBad := by
  have hm : calculate_mortgage
      (exFixed.purchase_price - exFixed.purchase_price * exFixed.down_payment_percentage)
      exScenarioBad.interest_rate 30 = some 0 := by
    norm_num [exFixed, exScenarioBad, exScenario, calculate_mortgage]
  simp [runTrial, hm, runTrialWith_exBad]

theorem run_exBad (oracle : List ℚ → IrrOutcome) :
    run_simulations_with_savings_check exFixed exRangesBad [exDraw] oracle =
      some (aggregate 0 oracle 1 [exTrialBad]) := by
  have ht : exFixed.target_irr = 0 := rfl
  simp [run_simulations_with_savings_check, sample_exBad, mapTrials, runTrial_exBad, ht]

/-- Claim C8 counterexample: with the income range `(1, 0)` (`lo > hi`) the
simulation function does not reject the configuration: the income is sampled
(value 1), the trial runs to completion, and the favorable percentage is 100;
nothing fails fast. -/
theorem C8_counterexample :
    exRangesBad.annual_base_income_range.2 < exRangesBad.annual_base_income_range.1 ∧
    (sampleScenario exRangesBad exDraw).income = 1 ∧
    (run_simulations_with_savings_check exFixed exRangesBad [exDraw]
        (fun _ => IrrOutcome.finite 1)).map SimResult.favorable_percentage = some 100 := by
  refine ⟨?_, ?_, ?_⟩
  · norm_num [exRangesBad, exRanges]
  · rw [sample_exBad]
    rfl
  · rw [run_exBad]
    norm_num [aggregate, summarize, processTrial, addSums, Accum.start, exTrialBad]



/-- Sampling with one component's bounds swapped and its unit draw reflected
realizes exactly the same scenario: `np.random.uniform(lo, hi)` computes
`lo + (hi - lo) * u` with no bounds check, for every component. -/
theorem sampleScenario_swap_reflect (c : RangeField) (R : Ranges) (u : UnitDraws) :
    sampleScenario (swapRange c R) (reflectDraw c u) = sampleScenario R u := by
  cases c <;>
    · simp only [sampleScenario, swapRange, reflectDraw, uniform,
        Scenario.mk.injEq, and_true, true_and]
      ring

/-- Claim C8 (amended): for every configuration containing a range with
`lo > hi` (any of the nine ranged components), the simulation function does
not reject the configuration: it has no configuration-validation step, and
its result is identical to that for the configuration with that component's
bounds swapped and its unit draws reflected (`u` to `1 - u`) — the samples
are drawn as `lo + (hi - lo) * u`, i.e. from the reversed interval, rather
than refused. -/
theorem C8_no_validation (F : Fixed) (R : Ranges) (draws : List UnitDraws)
    (o : List ℚ → IrrOutcome) (c : RangeField)
    (h : (rangeOf c R).2 < (rangeOf c R).1) :
    run_simulations_with_savings_check F R draws o =
      run_simulations_with_savings_check F (swapRange c R)
        (draws.map (reflectDraw c)) o := by
  unfold run_simulations_with_savings_check
  rw [List.map_map, List.length_map]
  have hmaps : draws.map (sampleScenario (swapRange c R) ∘ reflectDraw c) =
      draws.map (sampleScenario R) :=
    List.map_congr_left fun u _ => sampleScenario_swap_reflect c R u
  rw [hmaps]

/-- Claim C8 witness: the configuration whose income range is inverted, with
a single trial. -/
theorem C8_witness :
    (rangeOf RangeField.income exRangesBad).2 < (rangeOf RangeField.income exRangesBad).1 ∧
    run_simulations_with_savings_check exFixed exRangesBad [exDraw]
        (fun _ => IrrOutcome.err) =
      run_simulations_with_savings_check exFixed (swapRange RangeField.income exRangesBad)
        ([exDraw].map (reflectDraw RangeField.income)) (fun _ => IrrOutcome.err) :=
  ⟨by norm_num [rangeOf, exRangesBad, exRanges],
    C8_no_validation exFixed exRangesBad [exDraw] (fun _ => IrrOutcome.err)
      RangeField.income (by norm_num [rangeOf, exRangesBad, exRanges])⟩

/-! ## C9: the savings amount only affects the mean net-upfront output -/



theorem Accum.eqExceptNU_refl (a : Accum) : a.eqExceptNU a :=
  ⟨rfl, rfl, rfl, rfl, rfl, rfl, rfl, rfl, rfl, rfl, rfl, rfl⟩


theorem runTrialWith_savings (F : Fixed) (sc : Scenario) (m s2 : ℚ) :
    runTrialWith { F with savings := s2 } sc m =
      shiftNU (runTrialWith F sc m) (s2 - F.savings) := by
  simp only [runTrialWith, finishTrial, shiftNU, TrialData.mk.injEq, and_true, true_and]
  ring

theorem runTrial_savings (F : Fixed) (sc : Scenario) (s2 : ℚ) :
    runTrial { F with savings := s2 } sc =
      (runTrial F sc).map (fun td => shiftNU td (s2 - F.savings)) := by
  unfold runTrial
  cases h : calculate_mortgage
      (F.purchase_price - F.purchase_price * F.down_payment_percentage)
      sc.interest_rate 30 with
  | none => simp [h]
  | some mm => simp [h, runTrialWith_savings]

theorem mapTrials_savings (F : Fixed) (s2 : ℚ) (scs : List Scenario) :
    mapTrials (runTrial { F with savings := s2 }) scs =
      (mapTrials (runTrial F) scs).map
        (List.map (fun td => shiftNU td (s2 - F.savings))) := by
  induction scs with
  | nil => rfl
  | cons sc rest ih =>
      simp only [mapTrials, runTrial_savings, ih]
      cases runTrial F sc with
      | none => rfl
      | some td =>
          cases mapTrials (runTrial F) rest with
          | none => rfl
          | some tds => rfl

theorem processTrial_eqExceptNU (t : ℚ) (o : List ℚ → IrrOutcome) (a b : Accum)
    (td : TrialData) (d : ℚ) (hab : a.eqExceptNU b) :
    (processTrial t o a (shiftNU td d)).eqExceptNU (processTrial t o b td) := by
  obtain ⟨h1, h2, h3, h4, h5, h6, h7, h8, h9, h10, h11, h12⟩ := hab
  have hcf : (shiftNU td d).cash_flows = td.cash_flows := rfl
  cases h : o td.cash_flows with
  | err =>
      simp [processTrial, addSums, shiftNU, Accum.eqExceptNU, hcf, h,
        h1, h2, h3, h4, h5, h6, h7, h8, h9, h10, h11, h12]
  | nonfinite =>
      by_cases hc : td.annual_cash_flow ≥ 0 <;>
        simp [processTrial, addSums, shiftNU, Accum.eqExceptNU, hcf, h, hc,
          h1, h2, h3, h4, h5, h6, h7, h8, h9, h10, h11, h12]
  | finite v =>
      by_cases hc : td.annual_cash_flow ≥ 0 <;>
        simp [processTrial, addSums, shiftNU, Accum.eqExceptNU, hcf, h, hc,
          h1, h2, h3, h4, h5, h6, h7, h8, h9, h10, h11, h12]

theorem foldl_eqExceptNU (t : ℚ) (o : List ℚ → IrrOutcome) (d : ℚ)
    (tds : List TrialData) :
    ∀ a b : Accum, a.eqExceptNU b →
      ((tds.map (fun td => shiftNU td d)).foldl (processTrial t o) a).eqExceptNU
        (tds.foldl (processTrial t o) b) := by
  induction tds with
  | nil =>
      intro a b hab
      exact hab
  | cons td rest ih =>
      intro a b hab
      simp only [List.map_cons, List.foldl_cons]
      exact ih _ _ (processTrial_eqExceptNU t o a b td d hab)

theorem summarize_eqExceptNU (n : ℕ) (a b : Accum) (hab : a.eqExceptNU b) :
    eraseNetUpfront (summarize n a) = eraseNetUpfront (summarize n b) := by
  obtain ⟨h1, h2, h3, h4, h5, h6, h7, h8, h9, h10, h11, h12⟩ := hab
  simp [eraseNetUpfront, summarize, SimResult.mk.injEq,
    h1, h2, h3, h4, h5, h6, h7, h8, h9, h10, h11, h12]

/-- Claim C9: two runs on identical draws and identical configuration except
the savings amount produce identical outputs apart from the mean net-upfront
value: the savings parameter gates nothing (the affordability check is absent)
and flows only into `total_net_upfront`. -/
theorem C9_savings_independence (F : Fixed) (R : Ranges) (draws : List UnitDraws)
    (o : List ℚ → IrrOutcome) (s2 : ℚ) :
    (run_simulations_with_savings_check { F with savings := s2 } R draws o).map
        eraseNetUpfront =
      (run_simulations_with_savings_check F R draws o).map eraseNetUpfront := by
  unfold run_simulations_with_savings_check
  rw [mapTrials_savings]
  cases h : mapTrials (runTrial F) (draws.map (sampleScenario R)) with
  | none => rfl
  | some tds =>
      show some (eraseNetUpfront (aggregate F.target_irr o draws.length
          (tds.map (fun td => shiftNU td (s2 - F.savings))))) =
        some (eraseNetUpfront (aggregate F.target_irr o draws.length tds))
      congr 1
      unfold aggregate
      exact summarize_eqExceptNU draws.length _ _
        (foldl_eqExceptNU F.target_irr o (s2 - F.savings) tds Accum.start Accum.start
          (Accum.eqExceptNU_refl Accum.start))
